import Mathlib

/-!
Shallow embedding of the deduplicated publish pipeline of the nostrhitch
repository: the duplicate guard and the post method of class NostrPost in
hwrecentchanges.py, together with the per-entry loop of
NostrHitchDaemon.run_hitchwiki_task in daemon.py.

Conventions of the embedding:
- the Python set posted_rss_ids and the key set of the dict existing_notes
  are Lists of Strings with insert-if-absent (set semantics for membership);
- the network is modelled by explicit flags: postToRelays is the global
  post_to_relays setting, relayOk says whether publish_event plus run_sync
  raise for a given event, convOk says whether entry_to_nostr raises for a
  given feed entry;
- exceptions become branches: the code catches every exception at the scope
  where Python catches it.
-/

namespace NostrHitch

/-- State of one NostrPost instance (hwrecentchanges.py, lines 227-252):
the enable_duplicate_check flag, the session set posted_rss_ids and the key
set of the dict existing_notes filled by fetch_existing_notes. -/
structure PostState where
  enable_duplicate_check : Bool
  posted_rss_ids : List String
  existing_notes : List String
  deriving DecidableEq

/-- Insertion into the Python set posted_rss_ids (the calls
self.posted_rss_ids.add(rss_id) in hwrecentchanges.py lines 378 and 389 and
daemon.py line 161): idempotent insert. -/
def addPosted (s : PostState) (id : String) : PostState :=
  if id ∈ s.posted_rss_ids then s
  else { s with posted_rss_ids := id :: s.posted_rss_ids }

/-- NostrPost.is_already_posted (hwrecentchanges.py lines 324-348): returns
False when duplicate checking is disabled, then membership in
posted_rss_ids, then membership in the keys of existing_notes. -/
def is_already_posted (s : PostState) (rss_id : String) : Bool :=
  if s.enable_duplicate_check = false then false
  else if rss_id ∈ s.posted_rss_ids then true
  else if rss_id ∈ s.existing_notes then true
  else false

/-- Result of NostrPost.post: the Boolean return value, the updated state,
and whether relay_manager.publish_event was invoked (a network call). -/
structure PostResult where
  returned : Bool
  state : PostState
  networkPublish : Bool
  deriving DecidableEq

/-- NostrPost.post (hwrecentchanges.py lines 350-390). postToRelays is the
global post_to_relays setting; relayOk = false models an exception raised
by publish_event or run_sync, caught at lines 380-385. On the exception
path the id is not added; when post_to_relays is false the id is added and
False is returned. -/
def post (s : PostState) (rss_id : String) (postToRelays relayOk : Bool) : PostResult :=
  if is_already_posted s rss_id then
    { returned := false, state := s, networkPublish := false }
  else if postToRelays then
    if relayOk then
      { returned := true, state := addPosted s rss_id, networkPublish := true }
    else
      { returned := false, state := s, networkPublish := true }
  else
    { returned := false, state := addPosted s rss_id, networkPublish := false }

/-- First element of an event tag of the form [r, id, ...] as scanned by
the loop over event.tags in fetch_existing_notes (hwrecentchanges.py lines
299-305): a tag of length at least two whose head is the string r yields
its second element. -/
def rssTagId : List String → Option String
  | t0 :: t1 :: _ => if t0 = "r" then some t1 else none
  | _ => none

/-- Insertion of a key into the dict existing_notes (rss_notes[rss_id] =
event): the key set gains the key if absent. -/
def addKey (keys : List String) (k : String) : List String :=
  if k ∈ keys then keys else k :: keys

/-- NostrPost.fetch_existing_notes (hwrecentchanges.py lines 254-322),
restricted to the key set of the dict it builds. The argument is the
outcome of the relay query: none models an exception raised anywhere in
the try block, in which case the except handler sets existing_notes to the
empty dict and returns normally; some evs is the list of received events,
each given by its tag list. -/
def fetch_existing_notes : Option (List (List (List String))) → List String
  | none => []
  | some evs =>
      evs.foldl (fun acc ev =>
        match ev.findSome? rssTagId with
        | some id => addKey acc id
        | none => acc) []

/-- One feed entry as seen by the daemon loop: its rss_id (entry.get with
default empty string, daemon.py line 150), whether entry_to_nostr succeeds
for it (convOk) and whether the relay publish succeeds for its event
(relayOk). -/
structure Entry where
  rss_id : String
  convOk : Bool
  relayOk : Bool
  deriving DecidableEq

/-- Classification of the path taken for one entry in
NostrHitchDaemon.run_hitchwiki_task (daemon.py lines 144-176). -/
inductive ItemOutcome
  | errored
  | skippedDup
  | postedDry
  | postedNet
  | failedNet
  | loggedOnly
  deriving DecidableEq

/-- Result of processing one entry: the path taken, the updated guard
state, and the number of publish_event network calls made (0 or 1). -/
structure StepResult where
  outcome : ItemOutcome
  state : PostState
  netPub : Nat
  deriving DecidableEq

/-- One iteration of the entry loop of run_hitchwiki_task (daemon.py lines
144-176): an exception from entry_to_nostr is caught and the loop
continues (errored); a duplicate is skipped; in dry-run mode the id is
added to posted_rss_ids without any post call (postedDry); otherwise
NostrPost.post is called and its Boolean return decides posted versus
skipped. failedNet is the path where post returned False after a relay
exception, loggedOnly the path where post returned False because the
global post_to_relays setting is false. -/
def stepEntry (dryRun postToRelays : Bool) (s : PostState) (e : Entry) : StepResult :=
  if e.convOk = false then
    { outcome := .errored, state := s, netPub := 0 }
  else if is_already_posted s e.rss_id then
    { outcome := .skippedDup, state := s, netPub := 0 }
  else if dryRun then
    { outcome := .postedDry, state := addPosted s e.rss_id, netPub := 0 }
  else
    let r := post s e.rss_id postToRelays e.relayOk
    { outcome := if r.returned then .postedNet
                 else if postToRelays then .failedNet else .loggedOnly,
      state := r.state,
      netPub := if r.networkPublish then 1 else 0 }

/-- Increments of posted_count and skipped_count for one entry, exactly as
run_hitchwiki_task counts (daemon.py lines 155, 162, 167, 169, 176): an
exception counts in neither, a duplicate and a False return from post
count in skipped_count, dry-run and a True return count in posted_count. -/
def countsOf : ItemOutcome → Nat × Nat
  | .errored => (0, 0)
  | .skippedDup => (0, 1)
  | .postedDry => (1, 0)
  | .postedNet => (1, 0)
  | .failedNet => (0, 1)
  | .loggedOnly => (0, 1)

/-- Result of one run of run_hitchwiki_task over a batch of entries. -/
structure RunResult where
  state : PostState
  posted_count : Nat
  skipped_count : Nat
  netPubs : Nat
  outcomes : List ItemOutcome
  deriving DecidableEq

/-- The entry loop of NostrHitchDaemon.run_hitchwiki_task (daemon.py lines
140-178) over a batch of entries, threading the guard state. -/
def runTask (dryRun postToRelays : Bool) (s : PostState) : List Entry → RunResult
  | [] => { state := s, posted_count := 0, skipped_count := 0, netPubs := 0, outcomes := [] }
  | e :: rest =>
      let st := stepEntry dryRun postToRelays s e
      let r := runTask dryRun postToRelays st.state rest
      { state := r.state,
        posted_count := (countsOf st.outcome).1 + r.posted_count,
        skipped_count := (countsOf st.outcome).2 + r.skipped_count,
        netPubs := st.netPub + r.netPubs,
        outcomes := st.outcome :: r.outcomes }

/-- Operations a session performs on one guard instance after creation:
a direct insertion into posted_rss_ids (markPublished) or a call to
NostrPost.post. -/
inductive GuardOp
  | mark (id : String)
  | doPost (id : String) (postToRelays relayOk : Bool)
  deriving DecidableEq

/-- Effect of one guard operation on the state. -/
def applyOp (s : PostState) : GuardOp → PostState
  | .mark id => addPosted s id
  | .doPost id p r => (post s id p r).state

/-- Effect of a sequence of guard operations. -/
def applyOps (s : PostState) (ops : List GuardOp) : PostState :=
  ops.foldl applyOp s

/-- Number of entries of a batch carrying a given id whose recorded path
was a successful network publish. -/
def netPublishesOf (id : String) (entries : List Entry) (outcomes : List ItemOutcome) : Nat :=
  (entries.zip outcomes).countP
    (fun q => decide (q.1.rss_id = id ∧ q.2 = ItemOutcome.postedNet))

/-- Report shape named by the spec for one pipeline run. -/
structure PipelineReport where
  attempted : Nat
  published : Nat
  skipped : Nat
  failed : Nat
  deriving DecidableEq

/-- Pipeline run report following the words of the spec, section 4.2 (used
only for comparison with the counters the code keeps): every item counts
as attempted; an empty id or a duplicate counts as skipped; a dry-run or
successful publish counts as published and marks the id known; a publish
failure counts as failed and does not mark the id. -/
def specRun (dryRun : Bool) (known : List String) : List Entry → PipelineReport
  | [] => { attempted := 0, published := 0, skipped := 0, failed := 0 }
  | e :: rest =>
      if e.rss_id = "" then
        let r := specRun dryRun known rest
        { r with attempted := r.attempted + 1, skipped := r.skipped + 1 }
      else if e.rss_id ∈ known then
        let r := specRun dryRun known rest
        { r with attempted := r.attempted + 1, skipped := r.skipped + 1 }
      else if dryRun || e.relayOk then
        let r := specRun dryRun (e.rss_id :: known) rest
        { r with attempted := r.attempted + 1, published := r.published + 1 }
      else
        let r := specRun dryRun known rest
        { r with attempted := r.attempted + 1, failed := r.failed + 1 }

/-- Inserting an id into posted_rss_ids leaves the duplicate-check flag
unchanged. -/
theorem addPosted_check (s : PostState) (id : String) :
    (addPosted s id).enable_duplicate_check = s.enable_duplicate_check := by
  unfold addPosted; split <;> rfl

/-- Inserting an id into posted_rss_ids leaves existing_notes unchanged. -/
theorem addPosted_existing (s : PostState) (id : String) :
    (addPosted s id).existing_notes = s.existing_notes := by
  unfold addPosted; split <;> rfl

/-- The inserted id is a member afterwards. -/
theorem addPosted_mem_self (s : PostState) (id : String) :
    id ∈ (addPosted s id).posted_rss_ids := by
  unfold addPosted; split
  · assumption
  · exact List.mem_cons_self _ _

/-- Insertion never removes members of posted_rss_ids. -/
theorem addPosted_mono (s : PostState) (id x : String)
    (h : x ∈ s.posted_rss_ids) : x ∈ (addPosted s id).posted_rss_ids := by
  unfold addPosted; split
  · exact h
  · exact List.mem_cons_of_mem _ h

/-- NostrPost.post leaves the duplicate-check flag unchanged. -/
theorem post_check (s : PostState) (id : String) (p r : Bool) :
    (post s id p r).state.enable_duplicate_check = s.enable_duplicate_check := by
  unfold post; split
  · rfl
  · split
    · split
      · exact addPosted_check s id
      · rfl
    · exact addPosted_check s id

/-- NostrPost.post leaves existing_notes unchanged. -/
theorem post_existing (s : PostState) (id : String) (p r : Bool) :
    (post s id p r).state.existing_notes = s.existing_notes := by
  unfold post; split
  · rfl
  · split
    · split
      · exact addPosted_existing s id
      · rfl
    · exact addPosted_existing s id

/-- NostrPost.post never removes members of posted_rss_ids. -/
theorem post_mono (s : PostState) (id : String) (p r : Bool) (x : String)
    (h : x ∈ s.posted_rss_ids) : x ∈ (post s id p r).state.posted_rss_ids := by
  unfold post; split
  · exact h
  · split
    · split
      · exact addPosted_mono s id x h
      · exact h
    · exact addPosted_mono s id x h

/-- When post returns True the id is in posted_rss_ids of the new state. -/
theorem post_returned_mem (s : PostState) (id : String) (p r : Bool)
    (h : (post s id p r).returned = true) :
    id ∈ (post s id p r).state.posted_rss_ids := by
  by_cases h1 : is_already_posted s id = true
  · simp [post, h1] at h
  · cases p
    · simp [post, h1] at h
    · cases r
      · simp [post, h1] at h
      · simp [post, h1]
        exact addPosted_mem_self s id

/-- Membership of the id in posted_rss_ids makes is_already_posted return
True when checking is enabled. -/
theorem is_already_posted_of_mem (s : PostState) (id : String)
    (hc : s.enable_duplicate_check = true) (h : id ∈ s.posted_rss_ids) :
    is_already_posted s id = true := by
  unfold is_already_posted
  simp [hc, h]

/-- is_already_posted stays True under any state change that keeps the
flag and existing_notes and only grows posted_rss_ids. -/
theorem is_already_posted_preserved (s t : PostState) (id : String)
    (hc : t.enable_duplicate_check = s.enable_duplicate_check)
    (he : t.existing_notes = s.existing_notes)
    (hm : ∀ x, x ∈ s.posted_rss_ids → x ∈ t.posted_rss_ids)
    (h : is_already_posted s id = true) : is_already_posted t id = true := by
  unfold is_already_posted at h ⊢
  by_cases hflag : s.enable_duplicate_check = false
  · simp [hflag] at h
  · simp only [hflag, if_neg, hc, he] at h ⊢
    rcases Decidable.em (id ∈ s.posted_rss_ids) with hmem | hmem
    · simp [hm id hmem]
    · simp [hmem] at h
      rcases Decidable.em (id ∈ t.posted_rss_ids) with ht | ht <;> simp [ht, h]

/-- Processing one entry leaves the duplicate-check flag unchanged. -/
theorem stepEntry_check (d p : Bool) (s : PostState) (e : Entry) :
    (stepEntry d p s e).state.enable_duplicate_check = s.enable_duplicate_check := by
  unfold stepEntry
  split
  · rfl
  · split
    · rfl
    · split
      · exact addPosted_check s e.rss_id
      · exact post_check s e.rss_id p e.relayOk

/-- Processing one entry leaves existing_notes unchanged. -/
theorem stepEntry_existing (d p : Bool) (s : PostState) (e : Entry) :
    (stepEntry d p s e).state.existing_notes = s.existing_notes := by
  unfold stepEntry
  split
  · rfl
  · split
    · rfl
    · split
      · exact addPosted_existing s e.rss_id
      · exact post_existing s e.rss_id p e.relayOk

/-- Processing one entry never removes members of posted_rss_ids. -/
theorem stepEntry_mono (d p : Bool) (s : PostState) (e : Entry) (x : String)
    (h : x ∈ s.posted_rss_ids) : x ∈ (stepEntry d p s e).state.posted_rss_ids := by
  unfold stepEntry
  split
  · exact h
  · split
    · exact h
    · split
      · exact addPosted_mono s e.rss_id x h
      · exact post_mono s e.rss_id p e.relayOk x h

/-- An id reported as duplicate stays reported as duplicate after one more
entry is processed. -/
theorem stepEntry_preserve (d p : Bool) (s : PostState) (e : Entry) (x : String)
    (h : is_already_posted s x = true) :
    is_already_posted (stepEntry d p s e).state x = true :=
  is_already_posted_preserved s _ x (stepEntry_check d p s e) (stepEntry_existing d p s e)
    (fun y hy => stepEntry_mono d p s e y hy) h

/-- A path recorded as a publish, real or dry, implies the entry converted
successfully and its id is in posted_rss_ids of the new state. -/
theorem stepEntry_posted_mem (d p : Bool) (s : PostState) (e : Entry)
    (h : (stepEntry d p s e).outcome = ItemOutcome.postedNet ∨
         (stepEntry d p s e).outcome = ItemOutcome.postedDry) :
    e.convOk = true ∧ e.rss_id ∈ (stepEntry d p s e).state.posted_rss_ids := by
  by_cases h2 : is_already_posted s e.rss_id = true <;>
    cases hc : e.convOk <;> cases d <;> cases p <;> cases hr : e.relayOk <;>
      simp [stepEntry, post, h2, hc, hr] at h ⊢ <;>
        exact addPosted_mem_self s e.rss_id

/-- With checking enabled, an id already in posted_rss_ids can never again
take the successful network publish path. -/
theorem stepEntry_no_net_of_mem (d p : Bool) (s : PostState) (e : Entry)
    (hc : s.enable_duplicate_check = true) (hm : e.rss_id ∈ s.posted_rss_ids) :
    (stepEntry d p s e).outcome ≠ ItemOutcome.postedNet := by
  have hdup := is_already_posted_of_mem s e.rss_id hc hm
  by_cases h1 : e.convOk = false <;> simp [stepEntry, h1, hdup]

/-- A run leaves the duplicate-check flag unchanged. -/
theorem runTask_check (d p : Bool) (es : List Entry) (s : PostState) :
    (runTask d p s es).state.enable_duplicate_check = s.enable_duplicate_check := by
  induction es generalizing s with
  | nil => rfl
  | cons e rest ih =>
      simp only [runTask]
      rw [ih]
      exact stepEntry_check d p s e

/-- A run leaves existing_notes unchanged. -/
theorem runTask_existing (d p : Bool) (es : List Entry) (s : PostState) :
    (runTask d p s es).state.existing_notes = s.existing_notes := by
  induction es generalizing s with
  | nil => rfl
  | cons e rest ih =>
      simp only [runTask]
      rw [ih]
      exact stepEntry_existing d p s e

/-- A run never removes members of posted_rss_ids. -/
theorem runTask_mono (d p : Bool) (es : List Entry) (s : PostState) (x : String)
    (h : x ∈ s.posted_rss_ids) : x ∈ (runTask d p s es).state.posted_rss_ids := by
  induction es generalizing s with
  | nil => exact h
  | cons e rest ih =>
      simp only [runTask]
      exact ih _ (stepEntry_mono d p s e x h)

/-- An id reported as duplicate stays reported as duplicate after a whole
run. -/
theorem runTask_preserve (d p : Bool) (es : List Entry) (s : PostState) (x : String)
    (h : is_already_posted s x = true) :
    is_already_posted (runTask d p s es).state x = true :=
  is_already_posted_preserved s _ x (runTask_check d p es s) (runTask_existing d p es s)
    (fun y hy => runTask_mono d p es s y hy) h

/-- A run records exactly one path per entry of the batch. -/
theorem runTask_len (d p : Bool) (es : List Entry) (s : PostState) :
    (runTask d p s es).outcomes.length = es.length := by
  induction es generalizing s with
  | nil => rfl
  | cons e rest ih =>
      simp only [runTask, List.length_cons]
      rw [ih]

/-- Unfolding equation: outcomes of a run over a cons batch. -/
theorem runTask_cons_outcomes (d p : Bool) (s : PostState) (e : Entry) (rest : List Entry) :
    (runTask d p s (e :: rest)).outcomes =
      (stepEntry d p s e).outcome :: (runTask d p (stepEntry d p s e).state rest).outcomes := rfl

/-- Unfolding equation: final state of a run over a cons batch. -/
theorem runTask_cons_state (d p : Bool) (s : PostState) (e : Entry) (rest : List Entry) :
    (runTask d p s (e :: rest)).state =
      (runTask d p (stepEntry d p s e).state rest).state := rfl

/-- Unfolding equation: posted_count of a run over a cons batch. -/
theorem runTask_cons_posted (d p : Bool) (s : PostState) (e : Entry) (rest : List Entry) :
    (runTask d p s (e :: rest)).posted_count =
      (countsOf (stepEntry d p s e).outcome).1 +
        (runTask d p (stepEntry d p s e).state rest).posted_count := rfl

/-- Unfolding equation: skipped_count of a run over a cons batch. -/
theorem runTask_cons_skipped (d p : Bool) (s : PostState) (e : Entry) (rest : List Entry) :
    (runTask d p s (e :: rest)).skipped_count =
      (countsOf (stepEntry d p s e).outcome).2 +
        (runTask d p (stepEntry d p s e).state rest).skipped_count := rfl

/-- Unfolding equation: network publish calls of a run over a cons batch. -/
theorem runTask_cons_netPubs (d p : Bool) (s : PostState) (e : Entry) (rest : List Entry) :
    (runTask d p s (e :: rest)).netPubs =
      (stepEntry d p s e).netPub +
        (runTask d p (stepEntry d p s e).state rest).netPubs := rfl

/-- No outcome list means no counted network publish. -/
theorem netPublishesOf_nil (id : String) (es : List Entry) :
    netPublishesOf id es [] = 0 := by
  unfold netPublishesOf
  cases es <;> simp

/-- Cons unfolding for the per-id count of network publishes. -/
theorem netPublishesOf_cons (id : String) (e : Entry) (es : List Entry)
    (o : ItemOutcome) (os : List ItemOutcome) :
    netPublishesOf id (e :: es) (o :: os) =
      netPublishesOf id es os +
        (if e.rss_id = id ∧ o = ItemOutcome.postedNet then 1 else 0) := by
  unfold netPublishesOf
  simp [List.zip_cons_cons, List.countP_cons]

/-- Core at-most-once induction: with checking enabled, a run makes no
successful network publish for an id already known to posted_rss_ids, at
most one for any id, and whenever it made one the id ends up in
posted_rss_ids of the final state. -/
theorem runTask_net_atmost (d p : Bool) (id : String) (es : List Entry) (s : PostState)
    (hc : s.enable_duplicate_check = true) :
    (id ∈ s.posted_rss_ids → netPublishesOf id es (runTask d p s es).outcomes = 0) ∧
    netPublishesOf id es (runTask d p s es).outcomes ≤ 1 ∧
    (1 ≤ netPublishesOf id es (runTask d p s es).outcomes →
      id ∈ (runTask d p s es).state.posted_rss_ids) := by
  induction es generalizing s with
  | nil =>
      refine ⟨fun _ => ?_, ?_, ?_⟩ <;> simp [netPublishesOf, runTask]
  | cons e rest ih =>
      have hc2 : (stepEntry d p s e).state.enable_duplicate_check = true := by
        rw [stepEntry_check]; exact hc
      obtain ⟨ih1, ih2, ih3⟩ := ih (stepEntry d p s e).state hc2
      simp only [runTask_cons_outcomes, runTask_cons_state, netPublishesOf_cons]
      by_cases hcase : e.rss_id = id ∧ (stepEntry d p s e).outcome = ItemOutcome.postedNet
      · obtain ⟨hid, hnet⟩ := hcase
        have hmem2 : id ∈ (stepEntry d p s e).state.posted_rss_ids := by
          have hm := (stepEntry_posted_mem d p s e (Or.inl hnet)).2
          rwa [hid] at hm
        have hzero := ih1 hmem2
        refine ⟨?_, ?_, ?_⟩
        · intro hmem
          refine absurd hnet (stepEntry_no_net_of_mem d p s e hc ?_)
          rw [hid]; exact hmem
        · rw [hzero, if_pos ⟨hid, hnet⟩]
        · intro _
          exact runTask_mono d p rest (stepEntry d p s e).state id hmem2
      · refine ⟨?_, ?_, ?_⟩
        · intro hmem
          rw [ih1 (stepEntry_mono d p s e id hmem), if_neg hcase]
        · rw [if_neg hcase]
          omega
        · intro h1
          rw [if_neg hcase] at h1
          exact ih3 (by omega)

/-- An entry that converts successfully and whose id the guard already
reports as duplicate is recorded as skippedDup at its position of the
batch. -/
theorem runTask_skips_known (d p : Bool) (e : Entry) (hconv : e.convOk = true) :
    ∀ (es : List Entry) (i : Nat) (s : PostState),
      s.enable_duplicate_check = true → es[i]? = some e →
      is_already_posted s e.rss_id = true →
      (runTask d p s es).outcomes[i]? = some ItemOutcome.skippedDup := by
  intro es
  induction es with
  | nil => intro i s _ hi _; simp at hi
  | cons e0 rest ih =>
      intro i s hc hi hdup
      cases i with
      | zero =>
          have he : e0 = e := by simpa using hi
          subst he
          simp only [runTask_cons_outcomes, List.getElem?_cons_zero, Option.some.injEq]
          unfold stepEntry
          simp [hconv, hdup]
      | succ n =>
          simp only [List.getElem?_cons_succ] at hi
          simp only [runTask_cons_outcomes, List.getElem?_cons_succ]
          exact ih n (stepEntry d p s e0).state (by rw [stepEntry_check]; exact hc) hi
            (stepEntry_preserve d p s e0 e.rss_id hdup)

/-- A position recorded as a publish, real or dry, names an entry of the
batch that converted successfully and whose id is in posted_rss_ids of the
final state of the run. -/
theorem runTask_posted_mem (d p : Bool) :
    ∀ (es : List Entry) (i : Nat) (s : PostState),
      ((runTask d p s es).outcomes[i]? = some ItemOutcome.postedNet ∨
       (runTask d p s es).outcomes[i]? = some ItemOutcome.postedDry) →
      ∃ e, es[i]? = some e ∧ e.convOk = true ∧
        e.rss_id ∈ (runTask d p s es).state.posted_rss_ids := by
  intro es
  induction es with
  | nil => intro i s h; simp [runTask] at h
  | cons e0 rest ih =>
      intro i s h
      cases i with
      | zero =>
          simp only [runTask_cons_outcomes, List.getElem?_cons_zero, Option.some.injEq] at h
          have hm := stepEntry_posted_mem d p s e0 h
          refine ⟨e0, by simp, hm.1, ?_⟩
          simp only [runTask_cons_state]
          exact runTask_mono d p rest _ e0.rss_id hm.2
      | succ n =>
          simp only [runTask_cons_outcomes, List.getElem?_cons_succ] at h
          obtain ⟨e, he, hcv, hmem⟩ := ih n (stepEntry d p s e0).state h
          refine ⟨e, ?_, hcv, ?_⟩
          · simpa using he
          · simp only [runTask_cons_state]; exact hmem

/-- In dry-run mode one entry makes no network publish call. -/
theorem stepEntry_dry_netPub (p : Bool) (s : PostState) (e : Entry) :
    (stepEntry true p s e).netPub = 0 := by
  unfold stepEntry
  by_cases h1 : e.convOk = false <;>
    by_cases h2 : is_already_posted s e.rss_id = true <;>
      simp [h1, h2]

/-- In dry-run mode a whole run makes no network publish call. -/
theorem runTask_dry_netPubs (p : Bool) (es : List Entry) :
    ∀ (s : PostState), (runTask true p s es).netPubs = 0 := by
  induction es with
  | nil => intro s; rfl
  | cons e rest ih =>
      intro s
      rw [runTask_cons_netPubs, stepEntry_dry_netPub, ih]

/-- After a dry run over entries that all convert successfully, every id
of the batch is reported as duplicate by the final state. -/
theorem runTask_dry_all_known (p : Bool) (es : List Entry) :
    ∀ (s : PostState), s.enable_duplicate_check = true →
      (∀ e ∈ es, e.convOk = true) →
      ∀ e ∈ es, is_already_posted (runTask true p s es).state e.rss_id = true := by
  induction es with
  | nil => intro s _ _ e he; simp at he
  | cons e0 rest ih =>
      intro s hc hconv e he
      rcases List.mem_cons.mp he with rfl | hmem
      · have hstep : is_already_posted (stepEntry true p s e).state e.rss_id = true := by
          by_cases h2 : is_already_posted s e.rss_id = true
          · exact stepEntry_preserve true p s e e.rss_id h2
          · have hcv : e.convOk = true := hconv e (List.mem_cons_self _ _)
            have hst : (stepEntry true p s e).state = addPosted s e.rss_id := by
              unfold stepEntry; simp [hcv, h2]
            rw [hst]
            exact is_already_posted_of_mem _ _ (by rw [addPosted_check]; exact hc)
              (addPosted_mem_self s e.rss_id)
        simp only [runTask_cons_state]
        exact runTask_preserve true p rest _ e.rss_id hstep
      · simp only [runTask_cons_state]
        exact ih (stepEntry true p s e0).state (by rw [stepEntry_check]; exact hc)
          (fun x hx => hconv x (List.mem_cons_of_mem _ hx)) e hmem

/-- A run over a batch whose entries all convert successfully and are all
already reported as duplicate changes nothing: no posted count, every
entry skipped, no network call, every recorded path skippedDup. -/
theorem runTask_all_dup (d p : Bool) (es : List Entry) :
    ∀ (s : PostState),
      (∀ e ∈ es, e.convOk = true ∧ is_already_posted s e.rss_id = true) →
      (runTask d p s es).state = s ∧
      (runTask d p s es).posted_count = 0 ∧
      (runTask d p s es).skipped_count = es.length ∧
      (runTask d p s es).netPubs = 0 ∧
      (∀ o ∈ (runTask d p s es).outcomes, o = ItemOutcome.skippedDup) := by
  induction es with
  | nil =>
      intro s _
      refine ⟨rfl, rfl, rfl, rfl, ?_⟩
      intro o ho; simp [runTask] at ho
  | cons e0 rest ih =>
      intro s hall
      obtain ⟨hcv, hdup⟩ := hall e0 (List.mem_cons_self _ _)
      have hstep : stepEntry d p s e0 =
          { outcome := ItemOutcome.skippedDup, state := s, netPub := 0 } := by
        unfold stepEntry; simp [hcv, hdup]
      obtain ⟨ih1, ih2, ih3, ih4, ih5⟩ := ih s (fun x hx => hall x (List.mem_cons_of_mem _ hx))
      refine ⟨?_, ?_, ?_, ?_, ?_⟩
      · rw [runTask_cons_state, hstep]; exact ih1
      · rw [runTask_cons_posted, hstep]
        simpa [countsOf] using ih2
      · rw [runTask_cons_skipped, hstep]
        simp only [countsOf, List.length_cons]
        omega
      · rw [runTask_cons_netPubs, hstep]
        simpa using ih4
      · intro o ho
        rw [runTask_cons_outcomes, hstep] at ho
        rcases List.mem_cons.mp ho with h | h
        · exact h
        · exact ih5 o h

/-- One guard operation leaves the duplicate-check flag unchanged. -/
theorem applyOp_check (s : PostState) (op : GuardOp) :
    (applyOp s op).enable_duplicate_check = s.enable_duplicate_check := by
  cases op with
  | mark id => exact addPosted_check s id
  | doPost id p r => exact post_check s id p r

/-- One guard operation never removes members of posted_rss_ids. -/
theorem applyOp_mono (s : PostState) (op : GuardOp) (x : String)
    (h : x ∈ s.posted_rss_ids) : x ∈ (applyOp s op).posted_rss_ids := by
  cases op with
  | mark id => exact addPosted_mono s id x h
  | doPost id p r => exact post_mono s id p r x h

/-- A sequence of guard operations leaves the duplicate-check flag
unchanged. -/
theorem applyOps_check (ops : List GuardOp) : ∀ (s : PostState),
    (applyOps s ops).enable_duplicate_check = s.enable_duplicate_check := by
  induction ops with
  | nil => intro s; rfl
  | cons op rest ih =>
      intro s
      have hstep : applyOps s (op :: rest) = applyOps (applyOp s op) rest := rfl
      rw [hstep, ih, applyOp_check]

/-- A sequence of guard operations never removes members of
posted_rss_ids. -/
theorem applyOps_mono (ops : List GuardOp) : ∀ (s : PostState) (x : String),
    x ∈ s.posted_rss_ids → x ∈ (applyOps s ops).posted_rss_ids := by
  induction ops with
  | nil => intro s x h; exact h
  | cons op rest ih =>
      intro s x h
      have hstep : applyOps s (op :: rest) = applyOps (applyOp s op) rest := rfl
      rw [hstep]
      exact ih (applyOp s op) x (applyOp_mono s op x h)

/-- Fresh guard state: duplicate checking enabled, empty session set and
empty relay-derived set, as built by NostrHitchDaemon.initialize_nostr_posts
when the seed query returns nothing. -/
def freshGuard : PostState :=
  { enable_duplicate_check := true, posted_rss_ids := [], existing_notes := [] }

/-- Guard state of an instance constructed with enable_duplicate_check =
false (reachable through the disable-duplicate-check command line flag of
hwrecentchanges.py): the constructor then skips fetch_existing_notes, so
both sets start empty. -/
def disabledGuard : PostState :=
  { enable_duplicate_check := false, posted_rss_ids := [], existing_notes := [] }

/-- The spec example batch: A publishes, B fails at the relay, C
publishes; all three convert successfully. -/
def batchABC : List Entry :=
  [{ rss_id := "a", convOk := true, relayOk := true },
   { rss_id := "b", convOk := true, relayOk := false },
   { rss_id := "c", convOk := true, relayOk := true }]

/-- Claim C1, counterexample: on a guard instance constructed with
enable_duplicate_check = false, markPublished adds the id to the posted
set, yet the very next isDuplicate check of the same id returns false, so
the claim as stated fails for that instance. -/
theorem C1_counterexample :
    "a" ∈ (addPosted disabledGuard "a").posted_rss_ids ∧
    is_already_posted (addPosted disabledGuard "a") "a" = false := by
  decide

/-- Claim C1 (amended): for every guard instance with duplicate checking
enabled, once markPublished of an id has been performed, every later
isDuplicate check of that id on the same instance returns true, under any
further sequence of guard operations; and ids are never removed, so the
posted set grows monotonically for the lifetime of the instance. -/
theorem C1_amended_theorem (s : PostState) (id : String) (ops : List GuardOp)
    (h : s.enable_duplicate_check = true) :
    is_already_posted (applyOps (addPosted s id) ops) id = true ∧
    ∀ x ∈ s.posted_rss_ids, x ∈ (applyOps s ops).posted_rss_ids := by
  constructor
  · apply is_already_posted_of_mem
    · rw [applyOps_check, addPosted_check]; exact h
    · exact applyOps_mono ops (addPosted s id) id (addPosted_mem_self s id)
  · intro x hx
    exact applyOps_mono ops s x hx

/-- Witness for C1_amended_theorem at a concrete guard state and a
concrete operation sequence. -/
theorem C1_amended_witness :
    (⟨true, ["b"], []⟩ : PostState).enable_duplicate_check = true ∧
    is_already_posted
      (applyOps (addPosted (⟨true, ["b"], []⟩ : PostState) "a") [GuardOp.mark "c"]) "a" = true :=
  ⟨by decide,
   (C1_amended_theorem (⟨true, ["b"], []⟩ : PostState) "a" [GuardOp.mark "c"] (by decide)).1⟩

/-- Claim C2, counterexample: on the batch A(ok), B(fails), C(ok) the
report following the words of the spec is attempted 3, published 2,
skipped 0, failed 1, but the counters kept by run_hitchwiki_task count
the failing item B in skipped_count, which is 1, not 0: the code keeps no
failed counter and does not produce the claimed report. -/
theorem C2_counterexample :
    specRun false [] batchABC =
      { attempted := 3, published := 2, skipped := 0, failed := 1 } ∧
    (runTask false true freshGuard batchABC).skipped_count = 1 ∧
    (runTask false true freshGuard batchABC).skipped_count ≠
      (specRun false [] batchABC).skipped := by
  decide

/-- Claim C2 (amended): a publish failure for one item does not prevent
the later items of the batch from being attempted (every entry of any
batch gets exactly one recorded path), and the failing item is counted in
skipped_count, since the report kept by the code has only posted and
skipped counters: the batch A(ok), B(fails), C(ok) yields 2 posted and 1
skipped, with only A and C marked published in the guard. -/
theorem C2_amended_theorem (entries : List Entry) (d p : Bool) (s : PostState) :
    (runTask d p s entries).outcomes.length = entries.length ∧
    (runTask false true freshGuard batchABC).posted_count = 2 ∧
    (runTask false true freshGuard batchABC).skipped_count = 1 ∧
    (runTask false true freshGuard batchABC).outcomes =
      [ItemOutcome.postedNet, ItemOutcome.failedNet, ItemOutcome.postedNet] ∧
    (runTask false true freshGuard batchABC).state.posted_rss_ids = ["c", "a"] ∧
    "b" ∉ (runTask false true freshGuard batchABC).state.posted_rss_ids :=
  ⟨runTask_len d p entries s, by decide, by decide, by decide, by decide, by decide⟩

/-- Claim C3: when the relay publish raises for a non-duplicate id, post
returns False, makes its network attempt without adding the id to
posted_rss_ids, the run records the failure path and counts no posted
item, and the id is still reported non-duplicate afterwards, so a later
run that sees the same item will attempt it again. -/
theorem C3_theorem (s : PostState) (id : String)
    (h : is_already_posted s id = false) :
    post s id true false =
      { returned := false, state := s, networkPublish := true } ∧
    is_already_posted (post s id true false).state id = false ∧
    (runTask false true s [{ rss_id := id, convOk := true, relayOk := false }]).state = s ∧
    (runTask false true s [{ rss_id := id, convOk := true, relayOk := false }]).outcomes =
      [ItemOutcome.failedNet] ∧
    (runTask false true s [{ rss_id := id, convOk := true, relayOk := false }]).posted_count = 0 ∧
    is_already_posted
      (runTask false true s
        [{ rss_id := id, convOk := true, relayOk := false }]).state id = false := by
  have hpost : post s id true false =
      { returned := false, state := s, networkPublish := true } := by
    unfold post; simp [h]
  have hstep : stepEntry false true s { rss_id := id, convOk := true, relayOk := false } =
      { outcome := ItemOutcome.failedNet, state := s, netPub := 1 } := by
    unfold stepEntry
    simp [h, hpost]
  refine ⟨hpost, ?_, ?_, ?_, ?_, ?_⟩
  · rw [hpost]; exact h
  · rw [runTask_cons_state, hstep]; rfl
  · rw [runTask_cons_outcomes, hstep]; rfl
  · rw [runTask_cons_posted, hstep]; rfl
  · rw [runTask_cons_state, hstep]; exact h

/-- Witness for C3_theorem on a fresh guard and the id a. -/
theorem C3_witness :
    is_already_posted freshGuard "a" = false ∧
    post freshGuard "a" true false =
      { returned := false, state := freshGuard, networkPublish := true } :=
  ⟨by decide, (C3_theorem freshGuard "a" (by decide)).1⟩

/-- Claim C4: when the relay query of fetch_existing_notes raises, the
function returns normally with an empty existing_notes set; a guard
seeded that way reports every id as non-duplicate, and the pipeline still
processes every entry of any batch. -/
theorem C4_theorem :
    fetch_existing_notes none = [] ∧
    (∀ id : String,
      is_already_posted (⟨true, [], fetch_existing_notes none⟩ : PostState) id = false) ∧
    (∀ (entries : List Entry) (d p : Bool),
      (runTask d p (⟨true, [], fetch_existing_notes none⟩ : PostState)
        entries).outcomes.length = entries.length) := by
  refine ⟨rfl, ?_, ?_⟩
  · intro id
    simp [is_already_posted, fetch_existing_notes]
  · intro entries d p
    exact runTask_len d p entries _

/-- Claim C5: in dry-run mode a run makes no network publish call while
every item recorded as a dry publish still has its id added to the guard,
so a second dry run on the same guard over the same input, when every
entry converts, reports every item as a skipped duplicate and none as
posted. -/
theorem C5_theorem (entries : List Entry) (p : Bool) (s : PostState)
    (hc : s.enable_duplicate_check = true)
    (hconv : ∀ e ∈ entries, e.convOk = true) :
    (runTask true p s entries).netPubs = 0 ∧
    (∀ (i : Nat) (e : Entry), entries[i]? = some e →
      (runTask true p s entries).outcomes[i]? = some ItemOutcome.postedDry →
      e.rss_id ∈ (runTask true p s entries).state.posted_rss_ids) ∧
    (runTask true p (runTask true p s entries).state entries).netPubs = 0 ∧
    (runTask true p (runTask true p s entries).state entries).posted_count = 0 ∧
    (runTask true p (runTask true p s entries).state entries).skipped_count =
      entries.length ∧
    (∀ o ∈ (runTask true p (runTask true p s entries).state entries).outcomes,
      o = ItemOutcome.skippedDup) := by
  have hall : ∀ e ∈ entries, e.convOk = true ∧
      is_already_posted (runTask true p s entries).state e.rss_id = true := by
    intro e he
    exact ⟨hconv e he, runTask_dry_all_known p entries s hc hconv e he⟩
  obtain ⟨h1, h2, h3, h4, h5⟩ :=
    runTask_all_dup true p entries (runTask true p s entries).state hall
  refine ⟨runTask_dry_netPubs p entries s, ?_, runTask_dry_netPubs p entries _, h2, h3, h5⟩
  intro i e hi ho
  obtain ⟨e2, hi2, _, hmem⟩ := runTask_posted_mem true p entries i s (Or.inr ho)
  rw [hi] at hi2
  injection hi2 with hh
  rw [hh]
  exact hmem

/-- Witness for C5_theorem on a fresh guard and a one-entry batch. -/
theorem C5_witness :
    freshGuard.enable_duplicate_check = true ∧
    (runTask true true freshGuard
      [{ rss_id := "a", convOk := true, relayOk := true }]).netPubs = 0 :=
  ⟨by decide,
   (C5_theorem [{ rss_id := "a", convOk := true, relayOk := true }] true freshGuard
      (by decide) (by decide)).1⟩

/-- Claim C6: with duplicate checking enabled, running the same batch
twice on the same guard instance makes at most one successful network
publish per id across both runs, and every position recorded as a
publish, real or dry, in the first run is recorded as a skipped duplicate
in the second run. -/
theorem C6_theorem (entries : List Entry) (d p : Bool) (s : PostState)
    (hc : s.enable_duplicate_check = true) :
    (∀ id : String,
      netPublishesOf id entries (runTask d p s entries).outcomes +
        netPublishesOf id entries
          (runTask d p (runTask d p s entries).state entries).outcomes ≤ 1) ∧
    (∀ i : Nat,
      ((runTask d p s entries).outcomes[i]? = some ItemOutcome.postedNet ∨
       (runTask d p s entries).outcomes[i]? = some ItemOutcome.postedDry) →
      (runTask d p (runTask d p s entries).state entries).outcomes[i]? =
        some ItemOutcome.skippedDup) := by
  have hc1 : (runTask d p s entries).state.enable_duplicate_check = true := by
    rw [runTask_check]; exact hc
  constructor
  · intro id
    obtain ⟨h1a, h1b, h1c⟩ := runTask_net_atmost d p id entries s hc
    obtain ⟨h2a, h2b, h2c⟩ :=
      runTask_net_atmost d p id entries (runTask d p s entries).state hc1
    by_cases hpos : 1 ≤ netPublishesOf id entries (runTask d p s entries).outcomes
    · have hz := h2a (h1c hpos)
      omega
    · omega
  · intro i hpub
    obtain ⟨e, hi, hcv, hmem⟩ := runTask_posted_mem d p entries i s hpub
    exact runTask_skips_known d p e hcv entries i (runTask d p s entries).state hc1 hi
      (is_already_posted_of_mem _ _ hc1 hmem)

/-- Witness for C6_theorem on a fresh guard and a one-entry batch. -/
theorem C6_witness :
    freshGuard.enable_duplicate_check = true ∧
    netPublishesOf "a" [{ rss_id := "a", convOk := true, relayOk := true }]
        (runTask false true freshGuard
          [{ rss_id := "a", convOk := true, relayOk := true }]).outcomes +
      netPublishesOf "a" [{ rss_id := "a", convOk := true, relayOk := true }]
        (runTask false true
          (runTask false true freshGuard
            [{ rss_id := "a", convOk := true, relayOk := true }]).state
          [{ rss_id := "a", convOk := true, relayOk := true }]).outcomes ≤ 1 :=
  ⟨by decide,
   (C6_theorem [{ rss_id := "a", convOk := true, relayOk := true }] false true freshGuard
      (by decide)).1 "a"⟩

/-- Claim C7, counterexample: an entry whose id resolves to the empty
string is not skipped by the pipeline: over a fresh guard it is published
to the network, counted as posted, and the empty id is added to
posted_rss_ids, contradicting the claim that such an item is neither
published nor added to the guard. -/
theorem C7_counterexample :
    (runTask false true freshGuard
      [{ rss_id := "", convOk := true, relayOk := true }]).posted_count = 1 ∧
    (runTask false true freshGuard
      [{ rss_id := "", convOk := true, relayOk := true }]).outcomes =
        [ItemOutcome.postedNet] ∧
    (runTask false true freshGuard
      [{ rss_id := "", convOk := true, relayOk := true }]).netPubs = 1 ∧
    "" ∈ (runTask false true freshGuard
      [{ rss_id := "", convOk := true, relayOk := true }]).state.posted_rss_ids := by
  decide

/-- Claim C7 (amended): the pipeline performs no empty-id check: an item
whose resolved id is the empty string takes the ordinary path — when the
empty id is not yet known the item is published and counted as posted,
the empty id is added to the guard, and afterwards it is reported as a
duplicate like any other id. -/
theorem C7_amended_theorem (s : PostState)
    (hc : s.enable_duplicate_check = true)
    (h : is_already_posted s "" = false) :
    (runTask false true s
      [{ rss_id := "", convOk := true, relayOk := true }]).posted_count = 1 ∧
    (runTask false true s
      [{ rss_id := "", convOk := true, relayOk := true }]).skipped_count = 0 ∧
    "" ∈ (runTask false true s
      [{ rss_id := "", convOk := true, relayOk := true }]).state.posted_rss_ids ∧
    is_already_posted (runTask false true s
      [{ rss_id := "", convOk := true, relayOk := true }]).state "" = true := by
  have hstep : stepEntry false true s { rss_id := "", convOk := true, relayOk := true } =
      { outcome := ItemOutcome.postedNet, state := addPosted s "", netPub := 1 } := by
    unfold stepEntry post
    simp [h]
  refine ⟨?_, ?_, ?_, ?_⟩
  · rw [runTask_cons_posted, hstep]; rfl
  · rw [runTask_cons_skipped, hstep]; rfl
  · rw [runTask_cons_state, hstep]
    exact runTask_mono false true [] _ "" (addPosted_mem_self s "")
  · rw [runTask_cons_state, hstep]
    exact runTask_preserve false true [] _ ""
      (is_already_posted_of_mem _ _ (by rw [addPosted_check]; exact hc)
        (addPosted_mem_self s ""))

/-- Witness for C7_amended_theorem on a fresh guard. -/
theorem C7_amended_witness :
    freshGuard.enable_duplicate_check = true ∧
    is_already_posted freshGuard "" = false ∧
    (runTask false true freshGuard
      [{ rss_id := "", convOk := true, relayOk := true }]).posted_count = 1 :=
  ⟨by decide, by decide, (C7_amended_theorem freshGuard (by decide) (by decide)).1⟩

/-- Claim C9: a guard instance constructed with enable_duplicate_check =
false reports every id as non-duplicate, whatever sequence of guard
operations, including markPublished of that very id, was performed on it
in the session. -/
theorem C9_theorem (s : PostState) (id : String) (ops : List GuardOp)
    (h : s.enable_duplicate_check = false) :
    is_already_posted (applyOps s ops) id = false := by
  unfold is_already_posted
  rw [applyOps_check]
  simp [h]

/-- Witness for C9_theorem: checking disabled, the id a marked, yet
reported non-duplicate. -/
theorem C9_witness :
    disabledGuard.enable_duplicate_check = false ∧
    is_already_posted (applyOps disabledGuard [GuardOp.mark "a"]) "a" = false :=
  ⟨by decide, C9_theorem disabledGuard "a" [GuardOp.mark "a"] (by decide)⟩

/-- Claim C10: with the global post_to_relays setting false, post on a
non-duplicate id returns False, the same value it returns for duplicates
and failures, makes no network call, yet still adds the id to
posted_rss_ids; the daemon loop, which reads a False return as skipped,
counts such an item in skipped_count and never in posted_count. -/
theorem C10_theorem (s : PostState) (id : String) (relayOk : Bool)
    (h : is_already_posted s id = false) :
    (post s id false relayOk).returned = false ∧
    (post s id false relayOk).networkPublish = false ∧
    (post s id false relayOk).state = addPosted s id ∧
    id ∈ (post s id false relayOk).state.posted_rss_ids ∧
    (runTask false false s
      [{ rss_id := id, convOk := true, relayOk := relayOk }]).posted_count = 0 ∧
    (runTask false false s
      [{ rss_id := id, convOk := true, relayOk := relayOk }]).skipped_count = 1 ∧
    (runTask false false s
      [{ rss_id := id, convOk := true, relayOk := relayOk }]).outcomes =
        [ItemOutcome.loggedOnly] := by
  have hpost : post s id false relayOk =
      { returned := false, state := addPosted s id, networkPublish := false } := by
    unfold post; simp [h]
  have hstep : stepEntry false false s { rss_id := id, convOk := true, relayOk := relayOk } =
      { outcome := ItemOutcome.loggedOnly, state := addPosted s id, netPub := 0 } := by
    unfold stepEntry
    simp [h, hpost]
  refine ⟨by rw [hpost], by rw [hpost], by rw [hpost], ?_, ?_, ?_, ?_⟩
  · rw [hpost]; exact addPosted_mem_self s id
  · rw [runTask_cons_posted, hstep]; rfl
  · rw [runTask_cons_skipped, hstep]; rfl
  · rw [runTask_cons_outcomes, hstep]; rfl

/-- Witness for C10_theorem on a fresh guard and the id a. -/
theorem C10_witness :
    is_already_posted freshGuard "a" = false ∧
    (post freshGuard "a" false true).returned = false :=
  ⟨by decide, (C10_theorem freshGuard "a" true (by decide)).1⟩

end NostrHitch
